import Mathlib

/-!
Verification development for the geometry/CRS utility core of the API-CNIG
map library.  The JavaScript sources are shallowly embedded: JS numbers are
modelled as rationals, JS arrays as lists, absent (`null`/`undefined`) values
as `Option`, and a thrown `TypeError` as an error value.  External collaborator
code (the OpenLayers transform engine and geometry classes, the proj4 engine)
is abstracted as explicit function parameters or data fields, exactly where
the sources call into it.
-/

/-- JS `Math.round`: round half towards positive infinity. -/
def jsRound (q : ℚ) : ℤ := ⌊q + 1 / 2⌋

/-- JS `Math.trunc`: round towards zero. -/
def jsTrunc (q : ℚ) : ℤ := if 0 ≤ q then ⌊q⌋ else ⌈q⌉

/-- An OpenLayers extent value `[minX, minY, maxX, maxY]`, kept as a list
because the sources index into it as a JS array. -/
abbrev ExtentL := List ℚ

/-- A CRS definition record of the compiled catalogue
(`src/impl/ol/js/projections.js`): transform-definition string, validity
extent, alias codes, unit, optional meters-per-unit, optional axis tag. -/
structure ProjDef where
  defStr : String
  extent : ExtentL
  codes : List String
  units : String
  metersPerUnit : Option ℚ := none
  axisOrientation : Option String := none
deriving DecidableEq

/-- EPSG:4258 (ETRS89 geographic). -/
def proj4258 : ProjDef :=
  { defStr := "+proj=longlat +ellps=GRS80 +towgs84=0,0,0,0,0,0,0 +no_defs",
    extent := [-16.1, 32.88, 39.65, 84.17],
    codes := ["EPSG:4258", "urn:ogc:def:crs:EPSG::4258",
              "http://www.opengis.net/gml/srs/epsg.xml#4258"],
    units := "d",
    metersPerUnit := some 111319.49079327358 }

/-- EPSG:25828 (ETRS89 / UTM 28). -/
def proj25828 : ProjDef :=
  { defStr := "+proj=utm +zone=28 +ellps=GRS80 +towgs84=0,0,0,0,0,0,0 +units=m +no_defs",
    extent := [397101.09, 3638520.14, 1034670.43, 9625438.82],
    codes := ["EPSG:25828", "urn:ogc:def:crs:EPSG::25828",
              "http://www.opengis.net/gml/srs/epsg.xml#25828"],
    units := "m" }

/-- EPSG:25829 (ETRS89 / UTM 29). -/
def proj25829 : ProjDef :=
  { defStr := "+proj=utm +zone=29 +ellps=GRS80 +towgs84=0,0,0,0,0,0,0 +units=m +no_defs",
    extent := [-164850.78, 3660417.01, 988728.57, 9567111.85],
    codes := ["EPSG:25829", "urn:ogc:def:crs:EPSG::25829",
              "http://www.opengis.net/gml/srs/epsg.xml#25829"],
    units := "m" }

/-- EPSG:25830 (ETRS89 / UTM 30).  Note the third alias code in the source is
the URL for 23030, not 25830. -/
def proj25830 : ProjDef :=
  { defStr := "+proj=utm +zone=30 +ellps=GRS80 +towgs84=0,0,0,0,0,0,0 +units=m +no_defs",
    extent := [-729785.83, 3715125.82, 940929.67, 9518470.69],
    codes := ["EPSG:25830", "urn:ogc:def:crs:EPSG::25830",
              "http://www.opengis.net/gml/srs/epsg.xml#23030"],
    units := "m" }

/-- EPSG:25831 (ETRS89 / UTM 31). -/
def proj25831 : ProjDef :=
  { defStr := "+proj=utm +zone=31 +ellps=GRS80 +towgs84=0,0,0,0,0,0,0 +units=m +no_defs",
    extent := [-1300111.74, 3804640.43, 893164.13, 9478718.31],
    codes := ["EPSG:25831", "urn:ogc:def:crs:EPSG::25831",
              "http://www.opengis.net/gml/srs/epsg.xml#25831"],
    units := "m" }

/-- EPSG:4230 (ED50 geographic). -/
def proj4230 : ProjDef :=
  { defStr := "+proj=longlat +ellps=intl +no_defs",
    extent := [-16.09882145355955, 25.711114310330917, 48.60999527749605, 84.16977336415472],
    codes := ["EPSG:4230", "urn:ogc:def:crs:EPSG::4230",
              "http://www.opengis.net/gml/srs/epsg.xml#4230"],
    units := "d",
    metersPerUnit := some 111319.49079327358 }

/-- EPSG:23028 (ED50 / UTM 28). -/
def proj23028 : ProjDef :=
  { defStr := "+proj=utm +zone=28 +ellps=intl +towgs84=-87,-98,-121,0,0,0,0 +units=m +no_defs",
    extent := [997517.95, 3873475.61, 2024693.05, 8529441.99],
    codes := ["EPSG:23028", "urn:ogc:def:crs:EPSG::23028",
              "http://www.opengis.net/gml/srs/epsg.xml#23028"],
    units := "m" }

/-- EPSG:23029 (ED50 / UTM 29). -/
def proj23029 : ProjDef :=
  { defStr := "+proj=utm +zone=29 +ellps=intl +towgs84=-87,-98,-121,0,0,0,0 +units=m +no_defs",
    extent := [448933.91, 3860083.93, 1860436.11, 8381369.16],
    codes := ["EPSG:23029", "urn:ogc:def:crs:EPSG::23029",
              "http://www.opengis.net/gml/srs/epsg.xml#23029"],
    units := "m" }

/-- EPSG:23030 (ED50 / UTM 30). -/
def proj23030 : ProjDef :=
  { defStr := "+proj=utm +zone=30 +ellps=intl +towgs84=-87,-98,-121,0,0,0,0 +units=m +no_defs",
    extent := [-99844.71, 3879626.63, 1682737.72, 8251830.80],
    codes := ["EPSG:23030", "urn:ogc:def:crs:EPSG::23030",
              "http://www.opengis.net/gml/srs/epsg.xml#23030"],
    units := "m" }

/-- EPSG:23031 (ED50 / UTM 31). -/
def proj23031 : ProjDef :=
  { defStr := "+proj=utm +zone=31 +ellps=intl +towgs84=-87,-98,-121,0,0,0,0 +units=m +no_defs",
    extent := [-650883.16, 3932764.97, 1493695.91, 8141744.84],
    codes := ["EPSG:23031", "urn:ogc:def:crs:EPSG::23031",
              "http://www.opengis.net/gml/srs/epsg.xml#23031"],
    units := "m" }

/-- EPSG:4326 (WGS 84 geographic). -/
def proj4326 : ProjDef :=
  { defStr := "+proj=longlat +datum=WGS84 +no_defs",
    extent := [-180, -90, 180, 90],
    codes := ["EPSG:4326", "urn:ogc:def:crs:EPSG::4326", "urn:ogc:def:crs:OGC:1.3:CRS84",
              "http://www.opengis.net/def/crs/OGC/1.3/CRS84"],
    units := "d",
    metersPerUnit := some 111319.49079327358,
    axisOrientation := some "neu" }

/-- EPSG:32627 (WGS 84 / UTM 27N). -/
def proj32627 : ProjDef :=
  { defStr := "+proj=utm +zone=27 +ellps=WGS84 +datum=WGS84 +units=m +no_defs",
    extent := [166021.4431, 0.0000, 833978.5569, 9329005.1825],
    codes := ["EPSG:32627", "urn:ogc:def:crs:EPSG::32627",
              "http://www.opengis.net/gml/srs/epsg.xml#32627"],
    units := "m" }

/-- EPSG:32628 (WGS 84 / UTM 28N). -/
def proj32628 : ProjDef :=
  { defStr := "+proj=utm +zone=28 +ellps=WGS84 +datum=WGS84 +units=m +no_defs",
    extent := [166021.44317933178, 0, 833978.5568206678, 9329005.18301614],
    codes := ["EPSG:32628", "urn:ogc:def:crs:EPSG::32628",
              "http://www.opengis.net/gml/srs/epsg.xml#32628"],
    units := "m" }

/-- EPSG:32629 (WGS 84 / UTM 29N). -/
def proj32629 : ProjDef :=
  { defStr := "+proj=utm +zone=29 +ellps=WGS84 +datum=WGS84 +units=m +no_defs",
    extent := [166021.4431, 0.0000, 833978.5569, 9329005.1825],
    codes := ["EPSG:32629", "urn:ogc:def:crs:EPSG::32629",
              "http://www.opengis.net/gml/srs/epsg.xml#32629"],
    units := "m" }

/-- EPSG:32630 (WGS 84 / UTM 30N). -/
def proj32630 : ProjDef :=
  { defStr := "+proj=utm +zone=30 +ellps=WGS84 +datum=WGS84 +units=m +no_defs",
    extent := [166021.4431, 0.0000, 833978.5569, 9329005.1825],
    codes := ["EPSG:32630", "urn:ogc:def:crs:EPSG::32630",
              "http://www.opengis.net/gml/srs/epsg.xml#32630"],
    units := "m" }

/-- EPSG:32631 (WGS 84 / UTM 31N). -/
def proj32631 : ProjDef :=
  { defStr := "+proj=utm +zone=31 +ellps=WGS84 +datum=WGS84 +units=m +no_defs",
    extent := [166021.4431, 0.0000, 833978.5569, 9329005.1825],
    codes := ["EPSG:32631", "urn:ogc:def:crs:EPSG::32631",
              "http://www.opengis.net/gml/srs/epsg.xml#32631"],
    units := "m" }

/-- EPSG:4081 (REGCAN95 geographic). -/
def proj4081 : ProjDef :=
  { defStr := "+proj=longlat +ellps=GRS80 +towgs84=0,0,0,0,0,0,0 +no_defs",
    extent := [-21.93, 24.6, -11.75, 32.76],
    codes := ["EPSG:4081", "urn:ogc:def:crs:EPSG::4081",
              "http://www.opengis.net/gml/srs/epsg.xml#4081"],
    units := "d",
    metersPerUnit := some 111319.49079327358 }

/-- EPSG:4082 (REGCAN95 / UTM 27N). -/
def proj4082 : ProjDef :=
  { defStr := "+proj=utm +zone=27 +ellps=GRS80 +towgs84=0,0,0,0,0,0,0 +units=m +no_defs",
    extent := [405849.71, 2720975.60, 1367994.77, 3662797.15],
    codes := ["EPSG:4082", "urn:ogc:def:crs:EPSG::4082",
              "http://www.opengis.net/gml/srs/epsg.xml#4082"],
    units := "m" }

/-- EPSG:4083 (REGCAN95 / UTM 28N). -/
def proj4083 : ProjDef :=
  { defStr := "+proj=utm +zone=28 +ellps=GRS80 +towgs84=0,0,0,0,0,0,0 +units=m +no_defs ",
    extent := [-202677.94, 2738405.48, 804488.92, 3629357.10],
    codes := ["EPSG:4083", "urn:ogc:def:crs:EPSG::4083",
              "http://www.opengis.net/gml/srs/epsg.xml#4083"],
    units := "m" }

/-- EPSG:3395 (WGS 84 / World Mercator). -/
def proj3395 : ProjDef :=
  { defStr := "+proj=merc +ellps=WGS84 +datum=WGS84 +units=m +no_defs",
    extent := [-20026376.39, 15496570.74, 20026376.39, 18764656.23],
    codes := ["EPSG:3395", "urn:ogc:def:crs:EPSG::3395",
              "http://www.opengis.net/gml/srs/epsg.xml#3395"],
    units := "m" }

/-- The catalogue list, in the exact order of the source file. -/
def projections : List ProjDef :=
  [proj4326, proj32627, proj32628, proj32629, proj32630, proj32631,
   proj4258, proj25829, proj25828, proj25830, proj25831,
   proj4230, proj23028, proj23029, proj23030, proj23031,
   proj4081, proj4082, proj4083, proj3395]

/-- The metadata object `new OLProjection({...})` built for one alias code.
`worldExtent` is not passed by the source, so it stays absent (modelled `[]`,
the same way `isNullOrEmpty` treats a missing extent). -/
structure OLProjM where
  code : String
  extent : ExtentL
  worldExtent : ExtentL := []
  units : String
  metersPerUnit : Option ℚ := none
  axisOrientation : Option String := none
deriving DecidableEq

/-- The OpenLayers `METERS_PER_UNIT` table, restricted to its exact rational
entries.  The `degrees` entry (2·π·6370997/360) is irrational and is never
consulted by this catalogue: its degree-based projections all carry an
explicit `metersPerUnit`, and their unit string is `d`, which is not a key of
the table anyway. -/
def METERS_PER_UNIT : String → Option ℚ
  | "m" => some 1
  | "ft" => some 0.3048
  | "us-ft" => some (1200 / 3937)
  | _ => none

/-- OpenLayers `Projection#getMetersPerUnit`: the explicit value if present,
else the table entry for the unit string. -/
def OLProjM.getMetersPerUnit (p : OLProjM) : Option ℚ :=
  p.metersPerUnit <|> METERS_PER_UNIT p.units

/-- The process-wide OpenLayers projection registry: code → projection,
written in registration order. -/
abbrev Registry := List (String × OLProjM)

/-- One catalogue definition turned into its per-alias metadata objects. -/
def olProjectionsOf (projection : ProjDef) : List OLProjM :=
  projection.codes.map fun code =>
    { code := code, extent := projection.extent, units := projection.units,
      metersPerUnit := projection.metersPerUnit,
      axisOrientation := projection.axisOrientation }

/-- `addProjections` of the source: for each definition, register every alias
code (the `proj4.defs` calls only feed the external transform engine and do
not affect metadata resolution) and add one `OLProjection` per alias to the
registry via `addEquivalentProjections`.  OpenLayers stores projections in a
plain object keyed by code, so a later registration of the same code
overwrites an earlier one. -/
def addProjections (projectionsParam : List ProjDef) : Registry :=
  projectionsParam.foldl
    (fun reg projection => reg ++ (olProjectionsOf projection).map fun p => (p.code, p)) []

/-- The registry state after the module's start-up call
`addProjections(projections)`. -/
def catalogueRegistry : Registry := addProjections projections

/-- OpenLayers `get(code)` (aliased `getProj` in the sources): the most
recently registered projection for the code, or absent. -/
def getProj (reg : Registry) (code : String) : Option OLProjM :=
  (reg.reverse.find? fun e => e.1 == code).map Prod.snd

/-- JS `Array.prototype.every` with the element index, as used by
`transformExtent`: `f i c` is the callback on element `c` at index `i`. -/
def everyIdx (f : ℕ → ℚ → Bool) : ℕ → List ℚ → Bool
  | _, [] => true
  | i, c :: rest => f i c && everyIdx f (i + 1) rest

/-- The `sameSrcProjExtent` check of `Utils.transformExtent`: every ordinate
of the extent is ≤ the source-projection extent ordinate for indices 0 and 1
and ≥ it for the remaining indices.  A comparison against a missing ordinate
(`undefined` in JS) is false. -/
def sameSrcProjExtent (extent srcProjExtent : ExtentL) : Bool :=
  everyIdx
    (fun i coord =>
      match srcProjExtent[i]? with
      | none => false
      | some s => if i < 2 then decide (coord ≤ s) else decide (s ≤ coord))
    0 extent

/-- A projection argument: either a code string (resolved through the
registry) or an already-resolved projection object. -/
inductive ProjArg where
  | code (s : String)
  | proj (p : OLProjM)

/-- The `isString(p) ? getProj(p) : p` resolution step. -/
def resolveProjArg (reg : Registry) : ProjArg → Option OLProjM
  | .code s => getProj reg s
  | .proj p => some p

namespace Utils

/-- `Utils.transformExtent`.  `numT` abstracts the external OpenLayers
`transformExtent` numeric corner transform.  An unregistered code makes the
source dereference `null` (in the then-branch via `getExtent`, in the
else-branch inside the numeric transform), modelled as `none`. -/
def transformExtent (numT : ExtentL → OLProjM → OLProjM → ExtentL) (reg : Registry)
    (extent : ExtentL) (srcProj tgtProj : ProjArg) : Option ExtentL :=
  match resolveProjArg reg srcProj, resolveProjArg reg tgtProj with
  | some olSrcProj, some olTgtProj =>
    if sameSrcProjExtent extent olSrcProj.extent then some olTgtProj.extent
    else some (numT extent olSrcProj olTgtProj)
  | _, _ => none

end Utils

/-- The OpenLayers geometry value decoded or handled by the utilities.  Each
variant stores the data the sources read from it: `polygon` additionally owns
its interior point and `multiPolygon` its interior points, because the
sources obtain those from the geometry object itself (`getInteriorPoint`,
`getInteriorPoints`), whose construction is external library code. -/
inductive OLGeom where
  | point (coords : List ℚ)
  | lineString (coords : List (List ℚ))
  | linearRing (coords : List (List ℚ))
  | polygon (rings : List (List (List ℚ))) (interiorPoint : List ℚ)
  | multiPoint (coords : List (List ℚ))
  | multiLineString (lines : List (List (List ℚ)))
  | multiPolygon (polys : List (List (List (List ℚ)))) (interiorPoints : List (List ℚ))
  | circle (center : List ℚ) (radius : ℚ)
  | geometryCollection (geoms : List OLGeom)

/-- The type tag of a tiled render feature (`GeometryType` constants). -/
inductive RFType where
  | point
  | lineString
  | linearRing
  | polygon
  | multiPoint
  | multiLineString
  | multiPolygon
  | geometryCollection
  | circle
  | other
deriving DecidableEq

/-- A tiled render geometry (`ol/render/Feature`): type tag, flat coordinate
buffer, segment boundaries, polygon-group boundaries, property map (opaque),
optional id, and — for the collection tag — the child geometries the source
reads with `getGeometries()`. -/
structure RenderFeatureM where
  rtype : RFType
  flatCoordinates : List ℚ
  ends : List ℕ
  endss : List (List ℕ)
  geometries : List OLGeom
  properties : ℕ
  id : Option String

/-- Result of `Utils.getCentroid`: either a coordinate array or — for a
render-feature input — the input object itself. -/
inductive CentroidResult where
  | coord (c : List ℚ)
  | render (rf : RenderFeatureM)

/-- The argument of `Utils.getCentroid`: a render feature or a decoded
geometry (the `instanceof RenderFeature` test separates them). -/
inductive GeomInput where
  | renderFeature (rf : RenderFeatureM)
  | geom (g : OLGeom)

namespace Utils

/-- The switch of `Utils.getCentroid` over a decoded geometry.  The source
recurses through `Utils.getCentroid` itself; every recursive argument is a
non-null geometry (never a render feature), so the null and `instanceof`
tests at the head of the source are no-ops there and the recursion re-enters
this switch directly.  Recursing on a missing list element
(`points[medianIdx]` on an empty list) returns null in the source and `none`
here.  There is no `GeometryCollection` case in this switch: that type tag
falls through to `default: return null`. -/
def getCentroidGeom : OLGeom → Option CentroidResult
  | .point c => some (.coord c)
  | .lineString cs => (cs[cs.length / 2]?).map CentroidResult.coord
  | .linearRing cs => (cs[cs.length / 2]?).map CentroidResult.coord
  | .polygon rings interior => getCentroidGeom (.point interior)
  | .multiPoint cs =>
    match h : cs[cs.length / 2]? with
    | some c => getCentroidGeom (.point c)
    | none => none
  | .multiLineString ls =>
    match h : ls[ls.length / 2]? with
    | some l => getCentroidGeom (.lineString l)
    | none => none
  | .multiPolygon polys interiors => getCentroidGeom (.multiPoint interiors)
  | .circle c _ => some (.coord c)
  | .geometryCollection _ => none
termination_by geom => sizeOf geom
decreasing_by
  · simp_wf
    have h1 : 0 < sizeOf rings := by cases rings <;> simp_arith
    omega
  · simp_wf
    have h1 : sizeOf c < sizeOf cs := List.sizeOf_lt_sizeOf_of_mem (List.getElem?_mem h)
    omega
  · simp_wf
    have h1 : sizeOf l < sizeOf ls := List.sizeOf_lt_sizeOf_of_mem (List.getElem?_mem h)
    omega
  · simp_wf
    have h1 : 0 < sizeOf polys := by cases polys <;> simp_arith
    omega

/-- `Utils.getCentroid`: null input → null, a render feature is returned
unchanged, a geometry goes through the type switch. -/
def getCentroid : Option GeomInput → Option CentroidResult
  | none => none
  | some (.renderFeature rf) => some (.render rf)
  | some (.geom g) => getCentroidGeom g

/-- `Utils.getCentroidCoordinate`: the same dispatch written as an
if-else-if chain over WKT type names, with an extra `GEOMETRY_COLLECTION`
branch recursing on the member at half the list length.  No branch matches ⇒
the local stays `undefined` (`none`); in the source a recursion on a missing
member element throws, also `none` here. -/
def getCentroidCoordinate : OLGeom → Option (List ℚ)
  | .point c => some c
  | .lineString cs => cs[cs.length / 2]?
  | .linearRing cs => cs[cs.length / 2]?
  | .polygon rings interior => getCentroidCoordinate (.point interior)
  | .multiPoint cs =>
    match h : cs[cs.length / 2]? with
    | some c => getCentroidCoordinate (.point c)
    | none => none
  | .multiLineString ls =>
    match h : ls[ls.length / 2]? with
    | some l => getCentroidCoordinate (.lineString l)
    | none => none
  | .multiPolygon polys interiors => getCentroidCoordinate (.multiPoint interiors)
  | .circle c _ => some c
  | .geometryCollection gs =>
    match h : gs[gs.length / 2]? with
    | some g => getCentroidCoordinate g
    | none => none
termination_by geom => sizeOf geom
decreasing_by
  · simp_wf
    have h1 : 0 < sizeOf rings := by cases rings <;> simp_arith
    omega
  · simp_wf
    have h1 : sizeOf c < sizeOf cs := List.sizeOf_lt_sizeOf_of_mem (List.getElem?_mem h)
    omega
  · simp_wf
    have h1 : sizeOf l < sizeOf ls := List.sizeOf_lt_sizeOf_of_mem (List.getElem?_mem h)
    omega
  · simp_wf
    have h1 : 0 < sizeOf polys := by cases polys <;> simp_arith
    omega
  · simp_wf
    rename_i gs
    have h1 : sizeOf g < sizeOf gs := List.sizeOf_lt_sizeOf_of_mem (List.getElem?_mem h)
    omega

end Utils

/-- Pair up a flat interleaved buffer `[x0, y0, x1, y1, ...]` into coordinate
tuples, the grouping performed by the OpenLayers geometry constructors. -/
def pairUp : List ℚ → List (List ℚ)
  | x :: y :: rest => [x, y] :: pairUp rest
  | _ => []

/-- Split a flat buffer into rings/lines at the exclusive end indices of
`ends` (each segment runs from the previous end, initially 0). -/
def splitByEnds (flat : List ℚ) (ends : List ℕ) : List (List (List ℚ)) :=
  (ends.zip (0 :: ends)).map fun p => pairUp ((flat.take p.1).drop p.2)

/-- Split a flat buffer into polygons at the grouped end indices of `endss`
(indices are absolute; each group starts where the previous group ended). -/
def splitByEndss (flat : List ℚ) (endss : List (List ℕ)) : List (List (List (List ℚ))) :=
  (endss.zip (0 :: endss.map fun es => es.getLastD 0)).map fun p =>
    (p.1.zip (p.2 :: p.1)).map fun q => pairUp ((flat.take q.1).drop q.2)

/-- Interior point of a ring list.  The source delegates this to the external
OpenLayers `Polygon#getInteriorPoint`; the spec likewise delegates it to the
geometry representation, so any deterministic choice is adequate here — no
claim depends on the value.  Modelled as the first coordinate of the outer
ring. -/
def interiorPointOf (rings : List (List (List ℚ))) : List ℚ :=
  (rings.headD []).headD []

/-- Flat interior point of a render feature.  Modelled from the spec:
"Circle → center = interior point of buffer"; the source calls the external
`RenderFeature#getFlatInteriorPoint`.  Modelled as the first buffer pair; no
claim depends on the value. -/
def RenderFeatureM.getFlatInteriorPoint (rf : RenderFeatureM) : List ℚ :=
  (pairUp rf.flatCoordinates).headD []

namespace Utils

/-- `Utils.getGeometryFromRenderFeature`: switch on the type tag, building
the OpenLayers geometry from the flat buffer and the boundary arrays; an
unknown tag yields null. -/
def getGeometryFromRenderFeature (olRenderFeature : RenderFeatureM) : Option OLGeom :=
  let coordinates := olRenderFeature.flatCoordinates
  let ends := olRenderFeature.ends
  let endss := olRenderFeature.endss
  match olRenderFeature.rtype with
  | .point => some (.point coordinates)
  | .lineString => some (.lineString (pairUp coordinates))
  | .linearRing => some (.linearRing (pairUp coordinates))
  | .polygon =>
    let rings := splitByEnds coordinates ends
    some (.polygon rings (interiorPointOf rings))
  | .multiPoint => some (.multiPoint (pairUp coordinates))
  | .multiLineString => some (.multiLineString (splitByEnds coordinates ends))
  | .multiPolygon =>
    let polys := splitByEndss coordinates endss
    some (.multiPolygon polys (polys.map interiorPointOf))
  | .geometryCollection => some (.geometryCollection olRenderFeature.geometries)
  | .circle => some (.circle olRenderFeature.getFlatInteriorPoint 0)
  | .other => none

/-- `Utils.cloneOLRenderFeature`: a new render feature from the type tag, a
copy of the flat coordinates and of `ends`, the same property map and id.
The constructor call passes neither `endss` nor child geometries. -/
def cloneOLRenderFeature (olRenderFeature : RenderFeatureM) : RenderFeatureM :=
  { rtype := olRenderFeature.rtype,
    flatCoordinates := olRenderFeature.flatCoordinates,
    ends := olRenderFeature.ends,
    endss := [],
    geometries := [],
    properties := olRenderFeature.properties,
    id := olRenderFeature.id }

end Utils

/-- Identifier of a decoded feature: the render feature's own id, or one
generated with the fixed prefix and a random suffix (abstracted). -/
inductive IdM where
  | given (s : String)
  | generated

/-- A decoded `ol/Feature`. -/
structure OLFeatureM where
  id : IdM
  properties : ℕ
  geometry : Option OLGeom

namespace Utils

/-- `Utils.olRenderFeature2olFeature`.  `trans` abstracts the external
`RenderFeature#transform` reprojection of the flat buffer (from the tile
projection towards the — possibly absent — map projection).  The source's
guard reads `isNullOrEmpty(tileProjection) && isNullOrEmpty(tileProjection)`,
testing the tile projection twice, so the direct-decode branch is taken
exactly when the tile projection is absent, regardless of the map
projection; this match mirrors that behaviour. -/
def olRenderFeature2olFeature (trans : OLProjM → Option OLProjM → List ℚ → List ℚ)
    (olRenderFeature : Option RenderFeatureM) (tileProjection mapProjection : Option OLProjM) :
    Option OLFeatureM :=
  match olRenderFeature with
  | none => none
  | some rf =>
    let geometry : Option OLGeom :=
      match tileProjection with
      | none => getGeometryFromRenderFeature rf
      | some tp =>
        if tp.extent.isEmpty = false ∧ tp.worldExtent.isEmpty = false then
          let cloned := cloneOLRenderFeature rf
          getGeometryFromRenderFeature
            { cloned with flatCoordinates := trans tp mapProjection cloned.flatCoordinates }
        else none
    some
      { id :=
          match rf.id with
          | some s => if s = "" then .generated else .given s
          | none => .generated,
        properties := rf.properties,
        geometry := geometry }

end Utils

/-- `getUnitsPerMeter`: resolve the projection and divide the meter count by
its meters-per-unit.  An unregistered code makes the source dereference
null; a projection without a meters-per-unit makes the division produce NaN;
both are modelled as `none` (no claim reaches either). -/
def getUnitsPerMeter (reg : Registry) (projectionCode : String) (meter : ℚ) : Option ℚ :=
  (getProj reg projectionCode).bind fun projection =>
    projection.getMetersPerUnit.map fun metersPerUnit => meter / metersPerUnit

/-- A bounded extent as four numbers (minX, minY, maxX, maxY).  OpenLayers
represents the extent of an empty geometry as `[∞, ∞, -∞, -∞]`; that value,
the identity of `extend`, is modelled as `none`. -/
abbrev Ext4 := ℚ × ℚ × ℚ × ℚ

/-- OpenLayers `extend(extent1, extent2)`: component-wise min of the lower
ordinates and max of the upper ordinates, the empty extent being neutral. -/
def extendO : Option Ext4 → Option Ext4 → Option Ext4
  | none, b => b
  | some a, none => some a
  | some a, some b =>
    some (min a.1 b.1, min a.2.1 b.2.1, max a.2.2.1 b.2.2.1, max a.2.2.2 b.2.2.2)

/-- Extent of a list of coordinate tuples: extend from empty over each
`(x, y)` pair. -/
def extentOfCoords (cs : List (List ℚ)) : Option Ext4 :=
  cs.foldl (fun acc c => extendO acc (some (c.getD 0 0, c.getD 1 0, c.getD 0 0, c.getD 1 0))) none

mutual

/-- Extent of a geometry, as computed by the OpenLayers geometry classes:
the bounding box of all coordinates (circle: center ± radius; collection:
extension over the members). -/
def OLGeom.getExtentM : OLGeom → Option Ext4
  | .point c => extentOfCoords [c]
  | .lineString cs => extentOfCoords cs
  | .linearRing cs => extentOfCoords cs
  | .polygon rings _ => extentOfCoords rings.flatten
  | .multiPoint cs => extentOfCoords cs
  | .multiLineString ls => extentOfCoords ls.flatten
  | .multiPolygon polys _ => extentOfCoords polys.flatten.flatten
  | .circle c r =>
    some (c.getD 0 0 - r, c.getD 1 0 - r, c.getD 0 0 + r, c.getD 1 0 + r)
  | .geometryCollection gs => extentOfGeomList none gs

/-- Left fold of `extend` over the extents of a geometry list. -/
def extentOfGeomList : Option Ext4 → List OLGeom → Option Ext4
  | acc, [] => acc
  | acc, g :: gs => extentOfGeomList (extendO acc g.getExtentM) gs
end

namespace Utils

/-- `Utils.getFeaturesExtent`: per-feature geometry extents; a single
feature whose geometry is a Point gets a square of half-width
`getUnitsPerMeter(code, 1000)` around the point instead; empty input gives
null, otherwise the pairwise `extend` reduction.  The error value models the
throw on an unregistered projection code in the single-point branch. -/
def getFeaturesExtent (reg : Registry) (features : List OLGeom) (projectionCode : String) :
    Except Unit (Option Ext4) :=
  let extents := features.map OLGeom.getExtentM
  let buffered : Except Unit (List (Option Ext4)) :=
    match features with
    | [OLGeom.point c] =>
      match getUnitsPerMeter reg projectionCode 1000 with
      | some units =>
        .ok [some (c.getD 0 0 - units, c.getD 1 0 - units,
                   c.getD 0 0 + units, c.getD 1 0 + units)]
      | none => .error ()
    | _ => .ok extents
  match buffered with
  | .error e => .error e
  | .ok exts => .ok (if exts.isEmpty then none else exts.foldl extendO none)

end Utils

/-- The spec's description of the multi-feature result: component-wise
minimum of the lower ordinates and maximum of the upper ordinates over all
per-feature extents. -/
def unionSpec (e1 : Ext4) (es : List Ext4) : Ext4 :=
  ((es.map fun e => e.1).foldl min e1.1,
   (es.map fun e => e.2.1).foldl min e1.2.1,
   (es.map fun e => e.2.2.1).foldl max e1.2.2.1,
   (es.map fun e => e.2.2.2).foldl max e1.2.2.2)

/-- OpenLayers `getWidth(extent)`. -/
def olGetWidth (extent : ExtentL) : ℚ := extent.getD 2 0 - extent.getD 0 0

namespace Utils

/-- `Utils.generateResolutions`.  The local `newExtent` is assigned only
when the extent argument is null/empty (the source has no else branch), so a
provided extent leaves it `undefined` and `getWidth(undefined)` throws
(`none`).  Likewise `newMinZoom`/`newMaxZoom` are assigned only when the
corresponding argument is null/empty; a provided zoom bound leaves
`zoomLevels = NaN` and the loop body never runs. -/
def generateResolutions (projection : OLProjM) (extent : Option ExtentL)
    (minZoom maxZoom : Option ℤ) : Option (List ℚ) :=
  let newExtent : Option ExtentL :=
    if extent.isNone ∨ extent = some [] then some projection.extent else none
  match newExtent with
  | none => none
  | some e =>
    let size := olGetWidth e / 256
    let newMinZoom : Option ℤ := if minZoom.isNone then some 0 else none
    let newMaxZoom : Option ℤ := if maxZoom.isNone then some 20 else none
    match newMinZoom, newMaxZoom with
    | some lo, some hi => some ((List.range (hi - lo).toNat).map fun i => size / 2 ^ i)
    | _, _ => some []

/-- The raw WMTS scale of `Utils.getWMTSScale`: meters spanned by the view
divided by the pixel count, over the 0.28 mm reference pixel. -/
def rawWMTSScale (mpu pix : ℚ) (calculatedExtent : ExtentL) : ℚ :=
  let ang := calculatedExtent.getD 2 0 - calculatedExtent.getD 0 0
  (((mpu * ang) / pix) * 1000) / 0.28

/-- `Utils.getWMTSScale`, with the map object flattened into the values the
source reads from it: the projection's meters-per-unit, the viewport pixel
width and the calculated view extent. -/
def getWMTSScale (mpu pix : ℚ) (calculatedExtent : ExtentL) (exact : Bool) : ℤ :=
  let scale := rawWMTSScale mpu pix calculatedExtent
  let scale2 : ℚ :=
    if !exact then
      if 1000 ≤ scale ∧ scale ≤ 950000 then (jsRound (scale / 1000) : ℚ) * 1000
      else if 950000 ≤ scale then (jsRound (scale / 1000000) : ℚ) * 1000000
      else (jsRound scale : ℚ)
    else scale
  jsTrunc scale2

end Utils

/-- The spec's rounding rule for the inexact WMTS scale: nearest 1 below
1000, nearest 1000 from 1000 to 950000, nearest 1000000 above 950000. -/
def wmtsScaleSpecRound (raw : ℚ) : ℚ :=
  if raw < 1000 then (jsRound raw : ℚ)
  else if raw ≤ 950000 then (jsRound (raw / 1000) : ℚ) * 1000
  else (jsRound (raw / 1000000) : ℚ) * 1000000

/-- The mutable heap of coordinate tuples of a GeoJSON payload.  JS leaf
coordinate arrays are objects with identity; a leaf is referred to by its
address (index) into this store, so that aliasing between the input features
and the transformed output is represented faithfully. -/
abbrev Store := List (List ℚ)

/-- A GeoJSON geometry as traversed by `geojsonTo4326`: the type tag fixes
the nesting depth at which the leaf coordinate tuples (addresses) sit.  An
unrecognized tag (`other`) keeps its tag string and its untraversed
payload. -/
inductive GeomJSON where
  | point (a : ℕ)
  | multiPoint (as : List ℕ)
  | lineString (as : List ℕ)
  | multiLineString (ass : List (List ℕ))
  | polygon (ass : List (List ℕ))
  | multiPolygon (asss : List (List (List ℕ)))
  | other (tag : String) (raw : List ℕ)
deriving DecidableEq

/-- A GeoJSON feature: an opaque property map and a geometry. -/
structure GeoJSONFeature where
  properties : ℕ
  geom : GeomJSON
deriving DecidableEq

/-- `getXY`: copy the coordinate set and pop it down to `[x, y]`. -/
def getXY (coordinatesSet : List ℚ) : List ℚ := coordinatesSet.take 2

/-- `getFullCoordinates`: write the new x and y INTO the old coordinate
array (`const newCoordinates = oldCoordinates` aliases, it does not copy)
and return that same array's new value.  JS would grow a tuple shorter than
two entries; `List.set` leaves it unchanged — the data model guarantees ≥ 2
ordinates per tuple, and no claim depends on shorter tuples. -/
def getFullCoordinates (oldCoordinates newXY : List ℚ) : List ℚ :=
  (oldCoordinates.set 0 (newXY.getD 0 0)).set 1 (newXY.getD 1 0)

/-- `getTransformedCoordinates` on the store: read the tuple at address `a`,
transform its `[x, y]` through `t` (the resolved
`getTransform(codeProjection, EPSG 4326)` function of the external engine),
write the result back in place, and hand back the same address — the source
returns the very array it mutated. -/
def getTransformedCoordinates (t : List ℚ → List ℚ) (s : Store) (a : ℕ) : Store × ℕ :=
  let old := s.getD a []
  (s.set a (getFullCoordinates old (t (getXY old))), a)

/-- The per-element loop of `geojsonTo4326` at depth one: transform each
addressed tuple left to right, collecting the returned addresses. -/
def transformCoordList (t : List ℚ → List ℚ) : Store → List ℕ → Store × List ℕ
  | s, [] => (s, [])
  | s, a :: rest =>
    let r := getTransformedCoordinates t s a
    let rr := transformCoordList t r.1 rest
    (rr.1, r.2 :: rr.2)

/-- The nested loops at depth two (MultiLineString, Polygon). -/
def transformCoordList2 (t : List ℚ → List ℚ) : Store → List (List ℕ) → Store × List (List ℕ)
  | s, [] => (s, [])
  | s, as :: rest =>
    let r := transformCoordList t s as
    let rr := transformCoordList2 t r.1 rest
    (rr.1, r.2 :: rr.2)

/-- The nested loops at depth three (MultiPolygon). -/
def transformCoordList3 (t : List ℚ → List ℚ) :
    Store → List (List (List ℕ)) → Store × List (List (List ℕ))
  | s, [] => (s, [])
  | s, ass :: rest =>
    let r := transformCoordList2 t s ass
    let rr := transformCoordList3 t r.1 rest
    (rr.1, r.2 :: rr.2)

/-- The switch of `geojsonTo4326` over one feature's geometry type: traverse
the coordinates at the tag's nesting depth; the default case leaves
`newCoordinates` as the empty array. -/
def geojsonGeomTo4326 (t : List ℚ → List ℚ) (s : Store) : GeomJSON → Store × GeomJSON
  | .point a =>
    let r := getTransformedCoordinates t s a
    (r.1, .point r.2)
  | .multiPoint as =>
    let r := transformCoordList t s as
    (r.1, .multiPoint r.2)
  | .lineString as =>
    let r := transformCoordList t s as
    (r.1, .lineString r.2)
  | .multiLineString ass =>
    let r := transformCoordList2 t s ass
    (r.1, .multiLineString r.2)
  | .polygon ass =>
    let r := transformCoordList2 t s ass
    (r.1, .polygon r.2)
  | .multiPolygon asss =>
    let r := transformCoordList3 t s asss
    (r.1, .multiPolygon r.2)
  | .other tag _ => (s, .other tag [])

/-- `geojsonTo4326`: for each feature build a new feature object
(`createGeoJSONFeature` spreads the old one, keeps the type tag and property
map, and installs the traversal's coordinate payload), threading the
coordinate store through the per-feature loop. -/
def geojsonTo4326 (t : List ℚ → List ℚ) : Store → List GeoJSONFeature →
    Store × List GeoJSONFeature
  | s, [] => (s, [])
  | s, f :: fs =>
    let r := geojsonGeomTo4326 t s f.geom
    let rest := geojsonTo4326 t r.1 fs
    (rest.1, { f with geom := r.2 } :: rest.2)

/-- The leaf addresses a geometry's traversal touches, in traversal order. -/
def GeomJSON.leaves : GeomJSON → List ℕ
  | .point a => [a]
  | .multiPoint as => as
  | .lineString as => as
  | .multiLineString ass => ass.flatten
  | .polygon ass => ass.flatten
  | .multiPolygon asss => asss.flatten.flatten
  | .other _ _ => []

/-- All leaf addresses of a feature list, in traversal order. -/
def featuresLeaves (fs : List GeoJSONFeature) : List ℕ :=
  (fs.map fun f => f.geom.leaves).flatten

/-- The geometry value a feature's traversal hands to the new feature:
unchanged (same addresses) for recognized tags, emptied for unknown ones. -/
def GeomJSON.outGeom : GeomJSON → GeomJSON
  | .other tag _ => .other tag []
  | g => g

/-- Store effect of transforming the tuple at one address. -/
def stepStore (t : List ℚ → List ℚ) (s : Store) (a : ℕ) : Store :=
  (getTransformedCoordinates t s a).1

/-- Store effect of transforming a list of addresses left to right. -/
def applyAll (t : List ℚ → List ℚ) (s : Store) (as : List ℕ) : Store :=
  as.foldl (stepStore t) s

/-- Example projections built from catalogue data, used for concrete
instantiations. -/
def olProj4326 : OLProjM :=
  { code := "EPSG:4326", extent := [-180, -90, 180, 90], units := "d",
    metersPerUnit := some 111319.49079327358, axisOrientation := some "neu" }

/-- The EPSG:25830 metadata object as registered by the catalogue. -/
def olProj25830 : OLProjM :=
  { code := "EPSG:25830", extent := [-729785.83, 3715125.82, 940929.67, 9518470.69],
    units := "m" }

theorem everyIdx_eq_true_of_agree (src : ExtentL) :
    ∀ (t : ExtentL) (k : ℕ), (∀ j, t[j]? = src[k + j]?) →
    everyIdx
      (fun i coord =>
        match src[i]? with
        | none => false
        | some s => if i < 2 then decide (coord ≤ s) else decide (s ≤ coord))
      k t = true := by
  intro t
  induction t with
  | nil => intro k _; rfl
  | cons c rest ih =>
    intro k h
    have hk : src[k]? = some c := by
      have h0 := h 0
      simpa using h0.symm
    simp only [everyIdx, Bool.and_eq_true]
    constructor
    · rw [hk]
      by_cases hklt : k < 2 <;> simp [hklt]
    · refine ih (k + 1) fun j => ?_
      have hj := h (j + 1)
      simpa [Nat.add_assoc, Nat.add_comm 1 j] using hj

theorem sameSrcProjExtent_self (l : ExtentL) : sameSrcProjExtent l l = true :=
  everyIdx_eq_true_of_agree l l 0 fun j => by simp

theorem sameSrcProjExtent_four (e0 e1 e2 e3 s0 s1 s2 s3 : ℚ)
    (h0 : e0 ≤ s0) (h1 : e1 ≤ s1) (h2 : s2 ≤ e2) (h3 : s3 ≤ e3) :
    sameSrcProjExtent [e0, e1, e2, e3] [s0, s1, s2, s3] = true := by
  simp [sameSrcProjExtent, everyIdx, h0, h1, h2, h3]

/-- C1: an extent whose lower ordinates are ≤ the source projection's and
whose upper ordinates are ≥ it is answered with the target projection's own
validity extent, for every numeric transform; in particular the source
projection's own extent maps verbatim to the target's. -/
theorem transformExtent_spanning_claim :
    (∀ (numT : ExtentL → OLProjM → OLProjM → ExtentL) (reg : Registry)
       (e0 e1 e2 e3 s0 s1 s2 s3 : ℚ) (src tgt : OLProjM),
       src.extent = [s0, s1, s2, s3] →
       e0 ≤ s0 → e1 ≤ s1 → s2 ≤ e2 → s3 ≤ e3 →
       Utils.transformExtent numT reg [e0, e1, e2, e3] (.proj src) (.proj tgt)
         = some tgt.extent)
  ∧ (∀ (numT : ExtentL → OLProjM → OLProjM → ExtentL) (reg : Registry)
       (src tgt : OLProjM),
       Utils.transformExtent numT reg src.extent (.proj src) (.proj tgt)
         = some tgt.extent) := by
  constructor
  · intro numT reg e0 e1 e2 e3 s0 s1 s2 s3 src tgt hsrc h0 h1 h2 h3
    simp [Utils.transformExtent, resolveProjArg, hsrc,
          sameSrcProjExtent_four e0 e1 e2 e3 s0 s1 s2 s3 h0 h1 h2 h3]
  · intro numT reg src tgt
    simp [Utils.transformExtent, resolveProjArg, sameSrcProjExtent_self]

/-- C1 witness: the EPSG:4326 validity extent, enlarged by ten degrees on
every side, transforms to the EPSG:25830 validity extent verbatim, for a
numeric transform that would have returned something else. -/
theorem transformExtent_spanning_claim_witness :
    Utils.transformExtent (fun e _ _ => e.map fun q => q + 1) [] [-190, -100, 190, 100]
        (.proj olProj4326) (.proj olProj25830)
      = some [-729785.83, 3715125.82, 940929.67, 9518470.69] :=
  transformExtent_spanning_claim.1 (fun e _ _ => e.map fun q => q + 1) []
    (-190) (-100) 190 100 (-180) (-90) 180 90 olProj4326 olProj25830
    rfl (by norm_num) (by norm_num) (by norm_num) (by norm_num)

/-- C2: the alias codes of the EPSG:25830 definition do NOT all resolve to
the same metadata after start-up registration.  Its third alias is the
epsg.xml URL of 23030 (a slip), and the later ED50/UTM-30 definition
re-registers that URL, so the URL resolves to the ED50 extent while
EPSG:25830 resolves to the ETRS89 extent. -/
theorem addProjections_alias_inconsistent :
    "EPSG:25830" ∈ proj25830.codes
  ∧ "http://www.opengis.net/gml/srs/epsg.xml#23030" ∈ proj25830.codes
  ∧ (getProj catalogueRegistry "EPSG:25830").map OLProjM.extent
      = some [-729785.83, 3715125.82, 940929.67, 9518470.69]
  ∧ (getProj catalogueRegistry "http://www.opengis.net/gml/srs/epsg.xml#23030").map
        OLProjM.extent
      = some [-99844.71, 3879626.63, 1682737.72, 8251830.80]
  ∧ (getProj catalogueRegistry "EPSG:25830").map OLProjM.extent
      ≠ (getProj catalogueRegistry "http://www.opengis.net/gml/srs/epsg.xml#23030").map
          OLProjM.extent := by
  have h3 : (getProj catalogueRegistry "EPSG:25830").map OLProjM.extent
      = some [-729785.83, 3715125.82, 940929.67, 9518470.69] := by rfl
  have h4 : (getProj catalogueRegistry "http://www.opengis.net/gml/srs/epsg.xml#23030").map
        OLProjM.extent
      = some [-99844.71, 3879626.63, 1682737.72, 8251830.80] := by rfl
  refine ⟨by simp [proj25830], by simp [proj25830], h3, h4, fun hcontra => ?_⟩
  rw [h3, h4] at hcontra
  norm_num at hcontra

/-- A point-typed render feature with buffer `[1, 2]`. -/
def rfPointEx : RenderFeatureM :=
  { rtype := .point, flatCoordinates := [1, 2], ends := [], endss := [],
    geometries := [], properties := 0, id := none }

/-- A tile projection with a non-empty extent and world extent. -/
def tileProjEx : OLProjM :=
  { code := "TILE", extent := [0, 0, 1, 1], worldExtent := [0, 0, 2, 2], units := "m" }

/-- A reprojection that shifts every buffer entry by one, to make any
transform attempt visible. -/
def rfTransEx : OLProjM → Option OLProjM → List ℚ → List ℚ :=
  fun _ _ coords => coords.map fun q => q + 1

/-- C4: with the tile CRS supplied but the map CRS absent, the decoder does
NOT decode the buffer directly: the guard tests `tileProjection` twice, so
the clone-and-transform branch runs with an absent target CRS and the
decoded geometry carries the transformed buffer, not the original one. -/
theorem olRenderFeature2olFeature_mapCRS_absent_bug :
    (Utils.olRenderFeature2olFeature rfTransEx (some rfPointEx) (some tileProjEx) none).map
        (fun f => f.geometry)
      = some (some (.point [2, 3]))
  ∧ Utils.getGeometryFromRenderFeature rfPointEx = some (.point [1, 2])
  ∧ (some (OLGeom.point [2, 3]) : Option OLGeom) ≠ some (.point [1, 2]) := by
  refine ⟨?_, rfl, fun hcontra => ?_⟩
  · norm_num [Utils.olRenderFeature2olFeature, Utils.getGeometryFromRenderFeature,
      Utils.cloneOLRenderFeature, rfTransEx, rfPointEx, tileProjEx]
  · norm_num at hcontra

/-- A projection whose validity extent has width 2560. -/
def olProjWidth2560 : OLProjM :=
  { code := "EX2560", extent := [0, 0, 2560, 10], units := "m" }

/-- C5: `generateResolutions` with a provided extent and zoom bounds does
not return `[10, 5, 2.5]` — it reads the never-assigned `newExtent` and
throws (`none`).  Only with every optional argument absent does it produce
the ladder, and then over the projection extent with the default 20
levels. -/
theorem generateResolutions_bug :
    Utils.generateResolutions olProjWidth2560 (some [0, 0, 2560, 10]) (some 0) (some 3) = none
  ∧ Utils.generateResolutions olProjWidth2560 (some [0, 0, 2560, 10]) (some 0) (some 3)
      ≠ some [10, 5, 5 / 2]
  ∧ (Utils.generateResolutions olProjWidth2560 none none none).map List.length = some 20
  ∧ (Utils.generateResolutions olProjWidth2560 none none none).map (fun l => l.take 3)
      = some [10, 5, 5 / 2] := by
  have h1 : Utils.generateResolutions olProjWidth2560 (some [0, 0, 2560, 10])
      (some 0) (some 3) = none := rfl
  refine ⟨h1, ?_, ?_, ?_⟩
  · rw [h1]
    simp
  · have ht : ((20 : ℤ)).toNat = 20 := rfl
    norm_num [Utils.generateResolutions, olGetWidth, olProjWidth2560, ht]
  · have ht : ((20 : ℤ)).toNat = 20 := rfl
    norm_num [Utils.generateResolutions, olGetWidth, olProjWidth2560, ht, List.range_succ]

/-- C6: the WMTS scale is the raw scale
`(metersPerUnit · extentWidth / pixelWidth) · 1000 / 0.28`, rounded — when
`exact` is false — to the nearest 1 below 1000, to the nearest 1000 between
1000 and 950000 and to the nearest 1000000 above 950000, and truncated to an
integer in every case; a raw scale of 123456 comes out as 123000. -/
theorem getWMTSScale_claim :
    (∀ (mpu pix : ℚ) (calculatedExtent : ExtentL),
       Utils.getWMTSScale mpu pix calculatedExtent false
           = jsTrunc (wmtsScaleSpecRound (Utils.rawWMTSScale mpu pix calculatedExtent))
         ∧ Utils.getWMTSScale mpu pix calculatedExtent true
           = jsTrunc (Utils.rawWMTSScale mpu pix calculatedExtent))
  ∧ Utils.rawWMTSScale 123456 25000 [0, 0, 7, 0] = 123456
  ∧ Utils.getWMTSScale 123456 25000 [0, 0, 7, 0] false = 123000 := by
  refine ⟨fun mpu pix calculatedExtent => ⟨?_, rfl⟩, by norm_num [Utils.rawWMTSScale], ?_⟩
  · unfold Utils.getWMTSScale wmtsScaleSpecRound
    simp only [Bool.not_false, if_true]
    set r := Utils.rawWMTSScale mpu pix calculatedExtent with hr
    by_cases h1 : r < 1000
    · have hA : ¬(1000 ≤ r ∧ r ≤ 950000) := fun hc => absurd h1 (not_lt.2 hc.1)
      have hB : ¬(950000 ≤ r) := by linarith
      simp [hA, hB, h1]
    · by_cases h2 : r ≤ 950000
      · have hA : 1000 ≤ r ∧ r ≤ 950000 := ⟨not_lt.1 h1, h2⟩
        simp [hA, h1, h2]
      · have hA : ¬(1000 ≤ r ∧ r ≤ 950000) := fun hc => h2 hc.2
        have hB : 950000 ≤ r := by linarith
        simp [hA, hB, h1, h2]
  · norm_num [Utils.getWMTSScale, Utils.rawWMTSScale, jsRound, jsTrunc]

theorem foldl_extendO_acc (es : List Ext4) :
    ∀ acc : Ext4, (es.map some).foldl extendO (some acc) = some (unionSpec acc es) := by
  induction es with
  | nil => intro acc; rfl
  | cons e es ih =>
    intro acc
    simp only [List.map_cons, List.foldl_cons, extendO]
    rw [ih]
    rfl

theorem foldl_extendO_somes (e1 : Ext4) (es : List Ext4) :
    ((e1 :: es).map some).foldl extendO none = some (unionSpec e1 es) := by
  simp only [List.map_cons, List.foldl_cons]
  exact foldl_extendO_acc es e1

/-- C7: a singleton feature set whose geometry is a Point yields the square
of half-width `1000 / metersPerUnit` around the point; a set of two or more
features yields the plain component-wise min/max union of the per-feature
extents, with no buffer and no projection lookup. -/
theorem getFeaturesExtent_claim :
    (∀ (reg : Registry) (code : String) (c : List ℚ) (p : OLProjM) (m : ℚ),
       getProj reg code = some p → p.getMetersPerUnit = some m →
       Utils.getFeaturesExtent reg [.point c] code
         = .ok (some (c.getD 0 0 - 1000 / m, c.getD 1 0 - 1000 / m,
                      c.getD 0 0 + 1000 / m, c.getD 1 0 + 1000 / m)))
  ∧ (∀ (reg : Registry) (code : String) (fs : List OLGeom) (e1 : Ext4) (es : List Ext4),
       2 ≤ fs.length → fs.map OLGeom.getExtentM = (e1 :: es).map some →
       Utils.getFeaturesExtent reg fs code = .ok (some (unionSpec e1 es))) := by
  constructor
  · intro reg code c p m hp hm
    have hu : getUnitsPerMeter reg code 1000 = some (1000 / m) := by
      simp [getUnitsPerMeter, hp, hm]
    simp [Utils.getFeaturesExtent, hu, extendO]
  · intro reg code fs e1 es hlen hmap
    rcases fs with _ | ⟨f1, fs2⟩
    · simp at hlen
    rcases fs2 with _ | ⟨f2, rest⟩
    · simp at hlen
    have hmatch : Utils.getFeaturesExtent reg (f1 :: f2 :: rest) code
        = .ok (if ((f1 :: f2 :: rest).map OLGeom.getExtentM).isEmpty then none
               else ((f1 :: f2 :: rest).map OLGeom.getExtentM).foldl extendO none) := by
      cases f1 <;> rfl
    rw [hmatch, hmap]
    simp only [List.map_cons, List.isEmpty_cons, Bool.false_eq_true, if_false]
    rw [show (some e1 :: es.map some) = ((e1 :: es).map some) from rfl,
        foldl_extendO_somes]

/-- C7 witness: a single point at the origin under EPSG:25830 (meters, so
meters-per-unit 1) is answered with the square [-1000, -1000, 1000, 1000];
two point features get the plain union of their degenerate extents, with no
buffer. -/
theorem getFeaturesExtent_claim_witness :
    Utils.getFeaturesExtent catalogueRegistry [.point [0, 0]] "EPSG:25830"
      = .ok (some (-1000, -1000, 1000, 1000))
  ∧ Utils.getFeaturesExtent catalogueRegistry [.point [0, 0], .point [2, 3]] "EPSG:25830"
      = .ok (some (0, 0, 2, 3)) := by
  constructor
  · have h := getFeaturesExtent_claim.1 catalogueRegistry "EPSG:25830" [0, 0]
      olProj25830 1 rfl rfl
    simpa using h
  · have h := getFeaturesExtent_claim.2 catalogueRegistry "EPSG:25830"
      [.point [0, 0], .point [2, 3]] (0, 0, 0, 0) [(2, 3, 2, 3)] (by norm_num)
      (by norm_num [OLGeom.getExtentM, extentOfCoords, extendO])
    rw [h]
    norm_num [unionSpec]

/-- C8 counterexample: a present, non-empty GeometryCollection makes
`getCentroid` return null — its switch has no GeometryCollection case — even
though the median member's centroid exists; the input itself is not
absent. -/
theorem getCentroid_geometryCollection_counterexample :
    Utils.getCentroid (some (.geom (.geometryCollection [.point [1, 2]]))) = none
  ∧ (some (GeomInput.geom (.geometryCollection [.point [1, 2]])) : Option GeomInput) ≠ none
  ∧ Utils.getCentroidCoordinate (.point [1, 2]) = some [1, 2] := by
  refine ⟨?_, by simp, ?_⟩
  · show Utils.getCentroidGeom (.geometryCollection [.point [1, 2]]) = none
    rw [Utils.getCentroidGeom.eq_9]
  · rw [Utils.getCentroidCoordinate.eq_1]

/-- C8 amended: `getCentroid` answers null for every GeometryCollection
(dispatch falls through to the default); the median-member recursion the
claim describes is implemented by the companion `getCentroidCoordinate`,
which on a non-empty collection recurses on the member at
`floor(count / 2)`. -/
theorem getCentroid_geometryCollection_amended :
    (∀ gs : List OLGeom, Utils.getCentroid (some (.geom (.geometryCollection gs))) = none)
  ∧ (∀ (gs : List OLGeom) (g : OLGeom), gs[gs.length / 2]? = some g →
       Utils.getCentroidCoordinate (.geometryCollection gs)
         = Utils.getCentroidCoordinate g) := by
  constructor
  · intro gs
    show Utils.getCentroidGeom (.geometryCollection gs) = none
    rw [Utils.getCentroidGeom.eq_9]
  · intro gs g h
    rw [Utils.getCentroidCoordinate.eq_9, h]

/-- C8 amended witness: the singleton collection around the point (5, 6). -/
theorem getCentroid_geometryCollection_amended_witness :
    Utils.getCentroidCoordinate (.geometryCollection [.point [5, 6]]) = some [5, 6] := by
  have h := getCentroid_geometryCollection_amended.2 [.point [5, 6]] (.point [5, 6]) rfl
  rw [h, Utils.getCentroidCoordinate.eq_1]

/-- C9: on a non-empty LineString or LinearRing both centroid routines
return the coordinate at index `floor(count / 2)`. -/
theorem getCentroid_lineString_median (cs : List (List ℚ)) (h : cs ≠ []) :
    Utils.getCentroidGeom (.lineString cs) = some (.coord (cs.getD (cs.length / 2) []))
  ∧ Utils.getCentroidGeom (.linearRing cs) = some (.coord (cs.getD (cs.length / 2) []))
  ∧ Utils.getCentroidCoordinate (.lineString cs) = some (cs.getD (cs.length / 2) [])
  ∧ Utils.getCentroidCoordinate (.linearRing cs) = some (cs.getD (cs.length / 2) []) := by
  have hlt : cs.length / 2 < cs.length :=
    Nat.div_lt_self (List.length_pos.2 h) (by norm_num)
  have hget : cs[cs.length / 2]? = some (cs.getD (cs.length / 2) []) := by
    rw [List.getD_eq_getElem _ _ hlt]
    exact List.getElem?_eq_getElem hlt
  refine ⟨?_, ?_, ?_, ?_⟩
  · rw [Utils.getCentroidGeom.eq_2, hget]
    rfl
  · rw [Utils.getCentroidGeom.eq_3, hget]
    rfl
  · rw [Utils.getCentroidCoordinate.eq_2, hget]
  · rw [Utils.getCentroidCoordinate.eq_3, hget]

/-- C9 witness: the five-point LineString of the spec yields its index-2
coordinate (2, 2), through both routines. -/
theorem getCentroid_lineString_median_witness :
    Utils.getCentroidGeom (.lineString [[0, 0], [1, 1], [2, 2], [3, 3], [4, 4]])
      = some (.coord [2, 2])
  ∧ Utils.getCentroidCoordinate (.lineString [[0, 0], [1, 1], [2, 2], [3, 3], [4, 4]])
      = some [2, 2] := by
  have h := getCentroid_lineString_median [[0, 0], [1, 1], [2, 2], [3, 3], [4, 4]] (by simp)
  exact ⟨by simpa using h.1, by simpa using h.2.2.1⟩

/-- C10: a render-feature input comes back from `getCentroid` as the very
input object: not absent and not a coordinate tuple. -/
theorem getCentroid_renderFeature (rf : RenderFeatureM) :
    Utils.getCentroid (some (.renderFeature rf)) = some (.render rf)
  ∧ Utils.getCentroid (some (.renderFeature rf)) ≠ none
  ∧ ∀ c : List ℚ, Utils.getCentroid (some (.renderFeature rf)) ≠ some (.coord c) := by
  have h0 : Utils.getCentroid (some (.renderFeature rf)) = some (.render rf) := rfl
  refine ⟨h0, by rw [h0]; simp, fun c => by
    rw [h0]
    intro hx
    exact CentroidResult.noConfusion (Option.some.inj hx)⟩

theorem stepStore_getD_ne (t : List ℚ → List ℚ) (s : Store) (a b : ℕ) (hab : a ≠ b) :
    (stepStore t s a).getD b [] = s.getD b [] := by
  simp [stepStore, getTransformedCoordinates, List.getD_eq_getElem?_getD,
        List.getElem?_set_ne hab]

theorem applyAll_getD_not_mem (t : List ℚ → List ℚ) (as : List ℕ) :
    ∀ (s : Store) (a : ℕ), a ∉ as → (applyAll t s as).getD a [] = s.getD a [] := by
  induction as with
  | nil => intro s a _; rfl
  | cons b bs ih =>
    intro s a ha
    have hab : b ≠ a := fun he => ha (he ▸ List.mem_cons_self b bs)
    simp only [applyAll, List.foldl_cons]
    rw [show bs.foldl (stepStore t) (stepStore t s b) = applyAll t (stepStore t s b) bs from rfl]
    rw [ih _ a fun hm => ha (List.mem_cons_of_mem _ hm)]
    exact stepStore_getD_ne t s b a hab

theorem set_getD_self (l : Store) (i : ℕ) (F : List ℚ → List ℚ) (hF : F [] = []) :
    (l.set i (F (l.getD i []))).getD i [] = F (l.getD i []) := by
  by_cases hi : i < l.length
  · simp [List.getD_eq_getElem?_getD, List.getElem?_set_self hi]
  · have hge : l.length ≤ i := le_of_not_lt hi
    have h0 : l.getD i [] = [] := by
      simp [List.getD_eq_getElem?_getD, List.getElem?_eq_none hge]
    rw [List.set_eq_of_length_le hge, h0, hF]

theorem applyAll_getD_mem (t : List ℚ → List ℚ) (as : List ℕ) :
    ∀ s : Store, as.Nodup → ∀ a ∈ as,
    (applyAll t s as).getD a []
      = getFullCoordinates (s.getD a []) (t (getXY (s.getD a []))) := by
  induction as with
  | nil => intro s _ a ha; cases ha
  | cons b bs ih =>
    intro s hnd a ha
    have hnd2 := List.nodup_cons.1 hnd
    simp only [applyAll, List.foldl_cons]
    rw [show bs.foldl (stepStore t) (stepStore t s b) = applyAll t (stepStore t s b) bs from rfl]
    rcases List.mem_cons.1 ha with rfl | hmem
    · rw [applyAll_getD_not_mem t bs _ a hnd2.1]
      show (s.set a (getFullCoordinates (s.getD a []) (t (getXY (s.getD a []))))).getD a [] = _
      exact set_getD_self s a (fun old => getFullCoordinates old (t (getXY old))) rfl
    · have hba : b ≠ a := fun he => hnd2.1 (he ▸ hmem)
      rw [ih (stepStore t s b) hnd2.2 a hmem, stepStore_getD_ne t s b a hba]

theorem transformCoordList_spec (t : List ℚ → List ℚ) (as : List ℕ) :
    ∀ s : Store, transformCoordList t s as = (applyAll t s as, as) := by
  induction as with
  | nil => intro s; rfl
  | cons b bs ih =>
    intro s
    simp only [transformCoordList]
    rw [ih]
    rfl

theorem transformCoordList2_spec (t : List ℚ → List ℚ) (ass : List (List ℕ)) :
    ∀ s : Store, transformCoordList2 t s ass = (applyAll t s ass.flatten, ass) := by
  induction ass with
  | nil => intro s; rfl
  | cons as rest ih =>
    intro s
    simp only [transformCoordList2]
    rw [transformCoordList_spec, ih]
    simp [applyAll, List.flatten_cons]

theorem transformCoordList3_spec (t : List ℚ → List ℚ) (asss : List (List (List ℕ))) :
    ∀ s : Store, transformCoordList3 t s asss = (applyAll t s asss.flatten.flatten, asss) := by
  induction asss with
  | nil => intro s; rfl
  | cons ass rest ih =>
    intro s
    simp only [transformCoordList3]
    rw [transformCoordList2_spec, ih]
    simp [applyAll, List.flatten_cons, List.flatten_append]

theorem geojsonGeomTo4326_spec (t : List ℚ → List ℚ) (s : Store) (g : GeomJSON) :
    geojsonGeomTo4326 t s g = (applyAll t s g.leaves, g.outGeom) := by
  cases g with
  | point a => rfl
  | multiPoint as =>
    simp only [geojsonGeomTo4326]
    rw [transformCoordList_spec]
    rfl
  | lineString as =>
    simp only [geojsonGeomTo4326]
    rw [transformCoordList_spec]
    rfl
  | multiLineString ass =>
    simp only [geojsonGeomTo4326]
    rw [transformCoordList2_spec]
    rfl
  | polygon ass =>
    simp only [geojsonGeomTo4326]
    rw [transformCoordList2_spec]
    rfl
  | multiPolygon asss =>
    simp only [geojsonGeomTo4326]
    rw [transformCoordList3_spec]
    rfl
  | other tag raw => rfl

theorem geojsonTo4326_spec (t : List ℚ → List ℚ) (fs : List GeoJSONFeature) :
    ∀ s : Store,
    geojsonTo4326 t s fs
      = (applyAll t s (featuresLeaves fs),
         fs.map fun f => { f with geom := f.geom.outGeom }) := by
  induction fs with
  | nil => intro s; rfl
  | cons f rest ih =>
    intro s
    simp only [geojsonTo4326]
    rw [geojsonGeomTo4326_spec, ih]
    simp [featuresLeaves, applyAll, List.flatten_cons]

/-- The shift-by-one transform used as a concrete reprojection. -/
def t3Ex : List ℚ → List ℚ := fun xy => [xy.getD 0 0 + 1, xy.getD 1 0 + 1]

/-- A one-tuple coordinate store. -/
def s3Ex : Store := [[0, 0]]

/-- One Point feature whose leaf tuple lives at address 0. -/
def fs3Ex : List GeoJSONFeature := [{ properties := 7, geom := .point 0 }]

/-- C3 counterexample: reprojecting a single Point feature changes the
coordinate store — after the call the input's leaf tuple no longer holds its
original values, so `geojsonTo4326` mutates its input. -/
theorem geojsonTo4326_mutates_counterexample :
    (geojsonTo4326 t3Ex s3Ex fs3Ex).1 ≠ s3Ex := by
  norm_num [geojsonTo4326, geojsonGeomTo4326, getTransformedCoordinates,
            getFullCoordinates, getXY, t3Ex, s3Ex, fs3Ex]

/-- C3 amended: `geojsonTo4326` returns new feature objects that preserve
the property map and the type tag (and share the leaf tuples of recognized
geometries with the input), but it mutates the input's leaf coordinate
tuples in place: provided the leaf tuples are pairwise distinct arrays,
after the call each such tuple holds its transformed x and y (ordinates
beyond index 1 kept, via `getFullCoordinates`), and every tuple not touched
by the traversal is unchanged. -/
theorem geojsonTo4326_amended (t : List ℚ → List ℚ) (s : Store) (fs : List GeoJSONFeature)
    (h : (featuresLeaves fs).Nodup) :
    (∀ a ∈ featuresLeaves fs,
       (geojsonTo4326 t s fs).1.getD a []
         = getFullCoordinates (s.getD a []) (t (getXY (s.getD a []))))
  ∧ (∀ a, a ∉ featuresLeaves fs → (geojsonTo4326 t s fs).1.getD a [] = s.getD a [])
  ∧ (geojsonTo4326 t s fs).2 = fs.map fun f => { f with geom := f.geom.outGeom } := by
  have hspec := geojsonTo4326_spec t fs s
  refine ⟨fun a ha => ?_, fun a ha => ?_, ?_⟩
  · rw [hspec]
    exact applyAll_getD_mem t (featuresLeaves fs) s h a ha
  · rw [hspec]
    exact applyAll_getD_not_mem t (featuresLeaves fs) s a ha
  · rw [hspec]

/-- C3 amended witness: two features with distinct leaf addresses; the
LineString's three-ordinate tuple at address 1 ends up as `[4, 5, 7]` — the
transformed x and y with the third ordinate kept. -/
theorem geojsonTo4326_amended_witness :
    (geojsonTo4326 t3Ex [[0, 0], [3, 4, 7]]
        [{ properties := 7, geom := .point 0 },
         { properties := 8, geom := .lineString [1] }]).1.getD 1 []
      = [4, 5, 7] := by
  have h := (geojsonTo4326_amended t3Ex [[0, 0], [3, 4, 7]]
    [{ properties := 7, geom := .point 0 },
     { properties := 8, geom := .lineString [1] }] (by decide)).1 1 (by decide)
  norm_num [getFullCoordinates, getXY, t3Ex] at h
  exact h
